import Mathlib

/-!
Verification of the semantic-petri-net workflow navigators.

The hierarchical (FSM) navigator is embedded from
`simulator/fsm-navigator/index.js`; its dataset is embedded from
`simulator/workflow-test-dataset.json` (the file the navigator loads).
JavaScript objects are embedded as Lean structures whose optional fields
are `Option`s: access to a property that is absent from every dataset
record (such as `validStates`) yields `none`, mirroring JavaScript's
`undefined`, and a method call on `undefined` is embedded as a
`CallResult.thrown` outcome, mirroring the `TypeError` the handler throws.
The multi-entry (Petri) navigator is embedded from the JavaScript
`petri-workflow-navigator` server whose source is concatenated into
`src/unnamed/part_008` (from its shebang line onward); it loads the same
dataset, keeping its mutable per-entity state in a `places` table.  The
only definition modelled from the specification rather than from source is
the Transition Validator `isLegal` (spec section 4.2), used to state
legality facts that the code itself never checks.
-/

set_option maxRecDepth 8192

namespace SemanticPetriNet

/-- A task record of `workflow-test-dataset.json`.  `validTransitions` is the
per-state transition graph of the dataset; `validStates` is the field the
navigator code reads, which is absent (`none`) in every dataset record. -/
structure Task where
  id : String
  name : String
  state : String
  assignee : Option String
  dependsOn : List String
  validTransitions : List (String × List String)
  validStates : Option (List String)
  deriving Repr, DecidableEq

/-- A bug record of `workflow-test-dataset.json`. -/
structure Bug where
  id : String
  name : String
  state : String
  assignee : Option String
  severity : String
  validTransitions : List (String × List String)
  validStates : Option (List String)
  deriving Repr, DecidableEq

/-- A project record of `workflow-test-dataset.json`. -/
structure Project where
  id : String
  name : String
  state : String
  tasks : List String
  bugs : List String
  deriving Repr, DecidableEq

/-- A goal record of `workflow-test-dataset.json`.  Equality goals carry
`condEntity`/`condState`; action goals have no `condition.entity` field,
so their `condEntity` is `none` (JavaScript `undefined`, falsy). -/
structure Goal where
  id : String
  name : String
  condEntity : Option String
  condState : Option String
  condAction : Option String
  points : Nat
  deriving Repr, DecidableEq

/-- The `entities` tables of the dataset, keyed by id as association lists in
JSON insertion order (the navigator never reads `entities.users`). -/
structure Store where
  projects : List (String × Project)
  tasks : List (String × Task)
  bugs : List (String × Bug)
  deriving Repr, DecidableEq

/-- Association-list lookup, embedding a JavaScript keyed-object access
`obj[key]` (`none` is `undefined`). -/
def aLookup (key : String) : List (String × α) → Option α
  | [] => none
  | p :: ps => if p.1 = key then some p.2 else aLookup key ps

/-- In-place mutation of the entry at `key`, embedding a JavaScript property
assignment on the object stored there. -/
def aModify (key : String) (f : α → α) (l : List (String × α)) :
    List (String × α) :=
  l.map fun p => if p.1 = key then (p.1, f p.2) else p

/-- The shared transition graph of `task-auth` and `task-api` in the dataset. -/
def authGraph : List (String × List String) :=
  [("Open", ["In Progress"]),
   ("In Progress", ["Review", "Open"]),
   ("Review", ["Testing", "In Progress"]),
   ("Testing", ["Done", "Review"]),
   ("Done", [])]

/-- The transition graph of `task-ui`. -/
def uiGraph : List (String × List String) :=
  [("Open", ["In Progress"]),
   ("In Progress", ["Review", "Open"]),
   ("Review", ["Done", "In Progress"]),
   ("Done", [])]

/-- The transition graph of `task-deploy`. -/
def deployGraph : List (String × List String) :=
  [("Open", ["Ready"]),
   ("Ready", ["Deploying", "Open"]),
   ("Deploying", ["Done", "Open"]),
   ("Done", [])]

/-- The transition graph shared by both bugs. -/
def bugGraph : List (String × List String) :=
  [("New", ["Assigned"]),
   ("Assigned", ["In Progress", "New"]),
   ("In Progress", ["Fixed", "Assigned"]),
   ("Fixed", ["Verified", "In Progress"]),
   ("Verified", ["Closed", "In Progress"]),
   ("Closed", [])]

/-- The entity tables of `workflow-test-dataset.json`. -/
def testStore : Store where
  projects :=
    [("project-web",
      { id := "project-web", name := "Web Application", state := "Active",
        tasks := ["task-auth", "task-ui", "task-api", "task-deploy"],
        bugs := ["bug-login", "bug-performance"] })]
  tasks :=
    [("task-auth",
      { id := "task-auth", name := "Implement Authentication", state := "Open",
        assignee := none, dependsOn := [],
        validTransitions := authGraph, validStates := none }),
     ("task-ui",
      { id := "task-ui", name := "Design User Interface", state := "In Progress",
        assignee := some "user-alice", dependsOn := ["task-auth"],
        validTransitions := uiGraph, validStates := none }),
     ("task-api",
      { id := "task-api", name := "Build REST API", state := "Review",
        assignee := some "user-bob", dependsOn := [],
        validTransitions := authGraph, validStates := none }),
     ("task-deploy",
      { id := "task-deploy", name := "Deploy to Production", state := "Open",
        assignee := none, dependsOn := ["task-auth", "task-ui", "task-api"],
        validTransitions := deployGraph, validStates := none })]
  bugs :=
    [("bug-login",
      { id := "bug-login", name := "Login fails on mobile", state := "New",
        assignee := none, severity := "High",
        validTransitions := bugGraph, validStates := none }),
     ("bug-performance",
      { id := "bug-performance", name := "Slow page load", state := "In Progress",
        assignee := some "user-alice", severity := "Medium",
        validTransitions := bugGraph, validStates := none })]

/-- The `goals` array of `workflow-test-dataset.json`, in file order. -/
def workflowGoals : List Goal :=
  [{ id := "goal-ship-feature", name := "Ship Authentication Feature",
     condEntity := some "task-auth", condState := some "Done",
     condAction := none, points := 100 },
   { id := "goal-fix-critical-bug", name := "Fix Critical Bug",
     condEntity := some "bug-login", condState := some "Verified",
     condAction := none, points := 100 },
   { id := "goal-complete-review", name := "Complete Code Review",
     condEntity := some "task-api", condState := some "Testing",
     condAction := none, points := 100 },
   { id := "goal-ready-to-deploy", name := "Ready for Deployment",
     condEntity := some "task-deploy", condState := some "Ready",
     condAction := none, points := 100 },
   { id := "goal-performance-fixed", name := "Performance Issue Resolved",
     condEntity := some "bug-performance", condState := some "Verified",
     condAction := none, points := 100 },
   { id := "goal-quick-task-start", name := "Start Any Task Efficiently",
     condEntity := none, condState := none,
     condAction := some "Move any Open task to In Progress", points := 100 },
   { id := "goal-reassign-work", name := "Reassign Work Item",
     condEntity := none, condState := none,
     condAction := some "Change assignee on any In Progress item", points := 100 },
   { id := "goal-parallel-progress", name := "Advance Multiple Items",
     condEntity := none, condState := none,
     condAction := some "Move 2+ items forward in workflow", points := 100 }]

/-- The mutable `currentState` of the FSM navigator together with the mutable
entity tables it aliases (`workflowData.entities`).  `context` is embedded by
its three keys `currentProject`/`currentTask`/`currentBug`. -/
structure FsmState where
  store : Store
  location : String
  contextProject : Option String
  contextTask : Option String
  contextBug : Option String
  toolCallCount : Nat
  goalsFound : List String
  deriving Repr, DecidableEq

/-- The `currentState.toolCallCount++` performed at the top of the tool-call
handler, before the `switch` dispatch. -/
def bump (s : FsmState) : FsmState :=
  { s with toolCallCount := s.toolCallCount + 1 }

/-- `entity.state` for `workflowData.entities.tasks[e] ||
workflowData.entities.bugs[e]` (`none` when both lookups are `undefined`). -/
def entityState (store : Store) (e : String) : Option String :=
  ((aLookup e store.tasks).map Task.state) <|>
    ((aLookup e store.bugs).map Bug.state)

/-- The condition `goal.condition.entity && entity && entity.state ===
goal.condition.state` shared by `checkGoalsAfterOperation` and the
`checkGoals` tool. -/
def goalHolds (store : Store) (g : Goal) : Bool :=
  match g.condEntity with
  | none => false
  | some e =>
    match entityState store e with
    | none => false
    | some st => g.condState = some st

/-- The loop body of `checkGoalsAfterOperation`: walks the goal list in order,
skips goals already in `goalsFound`, and for each newly holding goal appends
its id to `goalsFound` and the goal to the achieved list. -/
def goalScan (store : Store) : List Goal → List String → List Goal × List String
  | [], found => ([], found)
  | g :: gs, found =>
    if g.id ∈ found then goalScan store gs found
    else if goalHolds store g then
      let rest := goalScan store gs (found ++ [g.id])
      (g :: rest.1, rest.2)
    else goalScan store gs found

/-- `checkGoalsAfterOperation` of the navigator, acting on the session's
`goalsFound` and returning the newly achieved goals. -/
def checkGoalsAfterOperation (s : FsmState) : List Goal × FsmState :=
  let r := goalScan s.store workflowGoals s.goalsFound
  (r.1, { s with goalsFound := r.2 })

/-- The `checkGoals` tool's recomputation of currently satisfied goals from
the live entity tables; it does not consult `goalsFound`. -/
def goalsCompletedNow (store : Store) : List Goal :=
  workflowGoals.filter (goalHolds store)

/-- JavaScript `String.prototype.startsWith`, used by the update tools'
location gates. -/
def strStarts (p s : String) : Bool :=
  p.data.isPrefixOf s.data

/-- A `tools/call` request: one constructor per tool of the navigator's
catalog, plus `unknown` for any other tool name (the `default` branch). -/
inductive ToolCall where
  | listProjects
  | getProject (projectId : String)
  | listTasks (projectId : String)
  | listBugs (projectId : String)
  | getTask (taskId : String)
  | getBug (bugId : String)
  | getTaskState (taskId : String)
  | updateTaskState (taskId newState : String)
  | updateBugState (bugId newState : String)
  | assignTask (taskId userId : String)
  | assignBug (bugId userId : String)
  | navigateToRoot
  | checkGoals
  | getMetrics
  | unknown (name : String)
  deriving Repr, DecidableEq

/-- Outcome of one handler invocation: a structured text result (the
`{content: [{type:'text', text}]}` object), or a JavaScript exception
escaping the handler. -/
inductive CallResult where
  | ok (text : String)
  | thrown (message : String)
  deriving Repr, DecidableEq

/-- Whether a call outcome is an escaped exception. -/
def CallResult.isThrown : CallResult → Bool
  | .ok _ => false
  | .thrown _ => true

/-- The TypeError thrown when the navigator calls a method of the absent
`validStates` property. -/
def typeErrorUndefined : CallResult :=
  .thrown "TypeError: cannot read properties of undefined"

/-- Sequencing of the dataset lookups inside a JS `map` callback: if any
lookup yields `undefined`, the callback's property access throws. -/
def seqOpt : List (Option α) → Option (List α)
  | [] => some []
  | o :: os =>
    match o with
    | none => none
    | some a => (seqOpt os).map (a :: ·)

/-- One line of the `listTasks` display. -/
def taskLine (t : Task) : String :=
  "- " ++ t.id ++ ": " ++ t.name ++ " (" ++ t.state ++
    (match t.assignee with
     | some a => ", assigned to " ++ a
     | none => "") ++ ")"

/-- One line of the `listBugs` display. -/
def bugLine (b : Bug) : String :=
  "- " ++ b.id ++ ": " ++ b.name ++ " (" ++ b.state ++
    (match b.assignee with
     | some a => ", assigned to " ++ a
     | none => "") ++ ")"

/-- One line of the `listProjects` display. -/
def projectLine (p : Project) : String :=
  "- " ++ p.id ++ ": " ++ p.name ++ " (" ++ p.state ++ ")"

/-- The `switch (name)` body of the navigator's tool-call handler, acting on
the already-incremented session.  Every branch mirrors the source case of
`simulator/fsm-navigator/index.js`, including the order of session mutations
relative to the point where the absent `validStates` property is touched. -/
def dispatch (c : ToolCall) (s : FsmState) : CallResult × FsmState :=
  match c with
  | .listProjects =>
    let s' := { s with location := "projects" }
    let ps := s.store.projects.map Prod.snd
    (.ok ("Projects (" ++ toString ps.length ++ "):\n" ++
      String.intercalate "\n" (ps.map projectLine) ++
      "\n\nFSM: You are now at projects level. Use getProject to navigate to a specific project."), s')
  | .getProject pid =>
    match aLookup pid s.store.projects with
    | none => (.ok "Project not found. Use listProjects first.", s)
    | some proj =>
      let s' := { s with location := pid, contextProject := some pid }
      (.ok ("Project: " ++ proj.name ++ "\nState: " ++ proj.state ++
        "\nTasks: " ++ toString proj.tasks.length ++
        "\nBugs: " ++ toString proj.bugs.length ++
        "\n\nFSM: You are now in project " ++ proj.name ++
        ". Use listTasks or listBugs to see items."), s')
  | .listTasks pid =>
    if s.location = "root" then
      (.ok "FSM Error: Must navigate to project first. Use listProjects.", s)
    else
      match aLookup pid s.store.projects with
      | none => (.ok "Project not found.", s)
      | some proj =>
        match seqOpt (proj.tasks.map fun tid => aLookup tid s.store.tasks) with
        | none => (typeErrorUndefined, s)
        | some ts =>
          (.ok ("Tasks in " ++ proj.name ++ ":\n" ++
            String.intercalate "\n" (ts.map taskLine) ++
            "\n\nFSM: Use getTask to navigate to a specific task."), s)
  | .listBugs pid =>
    if s.location = "root" then
      (.ok "FSM Error: Must navigate to project first. Use listProjects.", s)
    else
      match aLookup pid s.store.projects with
      | none => (.ok "Project not found.", s)
      | some proj =>
        match seqOpt (proj.bugs.map fun bid => aLookup bid s.store.bugs) with
        | none => (typeErrorUndefined, s)
        | some bs =>
          (.ok ("Bugs in " ++ proj.name ++ ":\n" ++
            String.intercalate "\n" (bs.map bugLine) ++
            "\n\nFSM: Use getBug to navigate to a specific bug."), s)
  | .getTask tid =>
    match aLookup tid s.store.tasks with
    | none => (.ok "Task not found. Use listTasks first.", s)
    | some task =>
      let s' := { s with location := tid, contextTask := some tid }
      match task.validStates with
      | none => (typeErrorUndefined, s')
      | some vs =>
        (.ok ("Task: " ++ task.name ++ "\nID: " ++ task.id ++
          "\nState: " ++ task.state ++
          "\nAssignee: " ++ task.assignee.getD "None" ++
          "\nValid States: " ++ String.intercalate " → " vs ++
          "\n\nFSM: You are now at task " ++ task.name ++
          ". You can updateTaskState or assignTask."), s')
  | .getBug bid =>
    match aLookup bid s.store.bugs with
    | none => (.ok "Bug not found. Use listBugs first.", s)
    | some bug =>
      let s' := { s with location := bid, contextBug := some bid }
      match bug.validStates with
      | none => (typeErrorUndefined, s')
      | some vs =>
        (.ok ("Bug: " ++ bug.name ++ "\nID: " ++ bug.id ++
          "\nState: " ++ bug.state ++
          "\nAssignee: " ++ bug.assignee.getD "None" ++
          "\nPriority: undefined" ++
          "\nValid States: " ++ String.intercalate " → " vs ++
          "\n\nFSM: You are now at bug " ++ bug.name ++
          ". You can updateBugState or assignBug."), s')
  | .getTaskState tid =>
    match aLookup tid s.store.tasks with
    | none => (.ok "Task not found.", s)
    | some task =>
      (.ok ("Task \"" ++ task.name ++ "\" is currently in state: " ++ task.state), s)
  | .updateTaskState tid ns =>
    if strStarts "task-" s.location then
      match aLookup tid s.store.tasks with
      | none => (.ok "Task not found.", s)
      | some task =>
        match task.validStates with
        | none => (typeErrorUndefined, s)
        | some vs =>
          if ns ∈ vs then
            let s1 := { s with store :=
              { s.store with tasks := aModify tid (fun t => { t with state := ns }) s.store.tasks } }
            let r := checkGoalsAfterOperation s1
            (.ok ("Task " ++ task.name ++ " updated to " ++ ns ++ ".\n" ++
              (if r.1.isEmpty then "" else
                "\n🎯 GOALS ACHIEVED: " ++
                  String.intercalate ", " (r.1.map Goal.name) ++ "!") ++
              "\n\nFSM: Task state updated. Return to project to continue with other tasks."), r.2)
          else
            (.ok ("Invalid state. Valid states: " ++ String.intercalate ", " vs), s)
    else
      (.ok "FSM Error: Must be at task location. Use getTask first.", s)
  | .updateBugState bid ns =>
    if strStarts "bug-" s.location then
      match aLookup bid s.store.bugs with
      | none => (.ok "Bug not found.", s)
      | some bug =>
        match bug.validStates with
        | none => (typeErrorUndefined, s)
        | some vs =>
          if ns ∈ vs then
            let s1 := { s with store :=
              { s.store with bugs := aModify bid (fun b => { b with state := ns }) s.store.bugs } }
            let r := checkGoalsAfterOperation s1
            (.ok ("Bug " ++ bug.name ++ " updated to " ++ ns ++ ".\n" ++
              (if r.1.isEmpty then "" else
                "\n🎯 GOALS ACHIEVED: " ++
                  String.intercalate ", " (r.1.map Goal.name) ++ "!") ++
              "\n\nFSM: Bug state updated. Return to project to continue."), r.2)
          else
            (.ok ("Invalid state. Valid states: " ++ String.intercalate ", " vs), s)
    else
      (.ok "FSM Error: Must be at bug location. Use getBug first.", s)
  | .assignTask tid uid =>
    match aLookup tid s.store.tasks with
    | none => (.ok "Task not found. Use getTask first.", s)
    | some task =>
      let s' := { s with store :=
        { s.store with tasks := aModify tid (fun t => { t with assignee := some uid }) s.store.tasks } }
      (.ok ("Task " ++ task.name ++ " assigned to " ++ uid ++
        ".\n\nFSM: Task assigned. Navigate elsewhere to continue."), s')
  | .assignBug bid uid =>
    match aLookup bid s.store.bugs with
    | none => (.ok "Bug not found. Use getBug first.", s)
    | some bug =>
      let s' := { s with store :=
        { s.store with bugs := aModify bid (fun b => { b with assignee := some uid }) s.store.bugs } }
      (.ok ("Bug " ++ bug.name ++ " assigned to " ++ uid ++
        ".\n\nFSM: Bug assigned. Navigate elsewhere to continue."), s')
  | .navigateToRoot =>
    let s' := { s with
      location := "root", contextProject := none,
      contextTask := none, contextBug := none }
    (.ok "Returned to root. \n\nFSM: You must use listProjects to start navigation again.", s')
  | .checkGoals =>
    let completed := goalsCompletedNow s.store
    let totalPoints := (completed.map Goal.points).sum
    (.ok ("Goals Status:\n" ++
      (if completed.isEmpty then "No goals completed yet" else
        String.intercalate "\n"
          (completed.map fun g => "✓ " ++ g.name ++ " (" ++ toString g.points ++ " points)")) ++
      "\n\nTotal Points: " ++ toString totalPoints ++ "/800" ++
      "\nGoals Found by FSM: " ++ toString s.goalsFound.length), s)
  | .getMetrics =>
    -- the source renders calls-per-goal with `toFixed(1)`; the decimal
    -- formatting is abstracted to integer division here
    (.ok ("FSM Navigator Metrics:\n- Tool calls: " ++ toString s.toolCallCount ++
      "\n- Goals found: " ++ toString s.goalsFound.length ++
      "\n- Current location: " ++ s.location ++
      "\n- Efficiency: " ++
      (if s.goalsFound.length > 0 then
        toString (s.toolCallCount / s.goalsFound.length) ++ " calls per goal"
       else "No goals yet")), s)
  | .unknown n =>
    (.ok ("Unknown tool: " ++ n), s)

/-- The navigator's tool-call handler: increments `toolCallCount`, then
dispatches on the tool name. -/
def handleCallTool (c : ToolCall) (s : FsmState) : CallResult × FsmState :=
  dispatch c (bump s)

/-- Runs a list of tool calls in order, collecting each call's outcome. -/
def runCalls : List ToolCall → FsmState → List CallResult × FsmState
  | [], s => ([], s)
  | c :: cs, s =>
    let r := handleCallTool c s
    let rest := runCalls cs r.2
    (r.1 :: rest.1, rest.2)

/-- The navigator's state right after loading the dataset. -/
def initState : FsmState :=
  { store := testStore, location := "root", contextProject := none,
    contextTask := none, contextBug := none, toolCallCount := 0, goalsFound := [] }

/-- The per-task projection `(id, state)` of the entity tables, used to state
that no call sequence ever changes any task's state. -/
def taskStates (store : Store) : List (String × String) :=
  store.tasks.map fun p => (p.1, p.2.state)

/-- Modelled from the spec: the Transition Validator of §4.2 — `isLegal(kind,
fromState, toState)` is true iff `toState` is a member of
`graph[kind][fromState]`; an absent `fromState` key yields `false`.  Neither
navigator's code consults a transition graph — the hierarchical one reads the
absent `validStates` field and the petri one performs no check at all — so
this definition exists to state the legality facts the claims are about. -/
def isLegal (graph : List (String × List String)) (src dst : String) : Bool :=
  match aLookup src graph with
  | none => false
  | some es => dst ∈ es

/-- ASCII lower-casing of one character (entity names in the dataset are
ASCII), embedding `toLowerCase()`. -/
def lowerChar (c : Char) : Char :=
  if 65 ≤ c.toNat ∧ c.toNat ≤ 90 then Char.ofNat (c.toNat + 32) else c

/-- Lower-cased character list of a string. -/
def lowerStr (s : String) : List Char :=
  s.data.map lowerChar

/-- Index of the earliest occurrence of `q` in the character list
(JavaScript `indexOf`). -/
def firstIdx (q : List Char) : List Char → Option Nat
  | [] => if q.isEmpty then some 0 else none
  | c :: cs =>
    if q.isPrefixOf (c :: cs) then some 0
    else (firstIdx q cs).map (· + 1)

/-- The case-insensitive earliest-substring-match index of the identifier in
a display name: the ranking key that the spec's §8 fuzzy-precedence property
refers to.  The navigator's code computes only containment
(`nameIncludes`), never this index. -/
def fuzzyIdx (q name : String) : Option Nat :=
  firstIdx (lowerStr q) (lowerStr name)

/-- `name.toLowerCase().includes(identifier.toLowerCase())` of the petri
resolver. -/
def nameIncludes (ident nm : String) : Bool :=
  (firstIdx (lowerStr ident) (lowerStr nm)).isSome

/-- One entry of the petri navigator's `places` table
(`src/unnamed/part_008`): the mutable per-entity state.  `justTransitioned`
is the flag `startWorkingOn` sets (initially absent, embedded as `false`);
the source never clears it. -/
structure Place where
  state : String
  assignee : Option String
  justTransitioned : Bool
  deriving Repr, DecidableEq

/-- The mutable `petriState` of the petri navigator: the `places` table keyed
by entity id, the tool-call counter, the satisfied-goal ids, and the
semantic-hints counter.  The declared-but-never-read `tokens` field of the
source is omitted. -/
structure PetriState where
  places : List (String × Place)
  toolCallCount : Nat
  goalsFound : List String
  semanticHintsUsed : Nat
  deriving Repr, DecidableEq

/-- The petri navigator's state after its startup loop: one place per task,
then one per bug, initialized from the dataset. -/
def initPetri : PetriState where
  places :=
    testStore.tasks.map
      (fun p => (p.1, { state := p.2.state, assignee := p.2.assignee,
                        justTransitioned := false })) ++
    testStore.bugs.map
      (fun p => (p.1, { state := p.2.state, assignee := p.2.assignee,
                        justTransitioned := false }))
  toolCallCount := 0
  goalsFound := []
  semanticHintsUsed := 0

/-- `petriState.toolCallCount++` at the top of the petri `tools/call`
handler, before the `switch`. -/
def pBump (p : PetriState) : PetriState :=
  { p with toolCallCount := p.toolCallCount + 1 }

/-- One goal's condition in the petri `checkGoalsAfterOperation`: an
entity-condition goal holds when its place exists with the goal's state; an
action goal holds only for the literal action `Move any Open task to In
Progress`, when some place is `In Progress` with `justTransitioned` set. -/
def petriGoalHolds (places : List (String × Place)) (g : Goal) : Bool :=
  match g.condEntity with
  | some e =>
    match aLookup e places with
    | some pl => g.condState = some pl.state
    | none => false
  | none =>
    g.condAction = some "Move any Open task to In Progress" &&
      places.any (fun q => q.2.state == "In Progress" && q.2.justTransitioned)

/-- The petri `checkGoalsAfterOperation`: goals not yet in `goalsFound` whose
condition holds are collected, then their ids are appended to `goalsFound`
after the scan. -/
def petriCheckGoalsAfterOperation (p : PetriState) : List Goal × PetriState :=
  let ng := workflowGoals.filter
    (fun g => !(p.goalsFound.contains g.id) && petriGoalHolds p.places g)
  (ng, { p with goalsFound := p.goalsFound ++ ng.map Goal.id })

/-- The petri navigator's task resolution, performed by `startWorkingOn`
alone: exact id, else the first task whose lower-cased name contains the
lower-cased identifier, in table iteration order.  There is no exact-name
stage and no ranking among fuzzy matches. -/
def resolveTask (ident : String) (tasks : List (String × Task)) : Option Task :=
  match aLookup ident tasks with
  | some t => some t
  | none => (tasks.map Prod.snd).find? (fun t => nameIncludes ident t.name)

/-- The hardcoded `transitions` map of the petri `completeTask` case; every
other state — `Open` and `Done` included — falls through `|| 'Done'`. -/
def completeTaskMap : List (String × String) :=
  [("In Progress", "Review"), ("Review", "Testing"), ("Testing", "Done")]

/-- `generateSemanticHints` for a task: `(nextSteps, suggestions)` per
current state; states other than Open/In Progress/Review — and every
bug-type entity — get empty lists.  Quote characters inside the suggestion
call templates are elided. -/
def taskHints (id st : String) : List String × List String :=
  if st = "Open" then
    (["Task is ready to be started", "Assign to a developer to begin work",
      "Check dependencies before starting"],
     ["startWorkingOn(" ++ id ++ ")", "assignTask(" ++ id ++ ", user-alice)",
      "checkDependencies()"])
  else if st = "In Progress" then
    (["Task is being worked on", "Move to Review when complete",
      "You can log time or add comments"],
     ["completeTask(" ++ id ++ ")", "updateTaskState(" ++ id ++ ", Review)",
      "logTime(2, Implemented feature)"])
  else if st = "Review" then
    (["Task is ready for testing", "Address review feedback if needed",
      "Move to Testing or back to In Progress"],
     ["updateTaskState(" ++ id ++ ", Testing)",
      "updateTaskState(" ++ id ++ ", In Progress)", "getReviewComments()"])
  else ([], [])

/-- Renders a hint list as `- item` lines. -/
def dashLines (l : List String) : String :=
  String.intercalate "\n" (l.map fun s => "- " ++ s)

/-- Interpolation of a possibly-null assignee (`null` prints as the string
`null` in a JS template literal). -/
def showAssignee : Option String → String
  | some a => a
  | none => "null"

/-- The goals-achieved fragment shared by the petri reply texts. -/
def goalsPart (gs : List Goal) : String :=
  if gs.isEmpty then "" else
    "\n🎯 GOALS ACHIEVED: " ++ String.intercalate ", " (gs.map Goal.name) ++ "!"

/-- A petri `tools/call` request: one constructor per tool advertised in
`tools/list`, plus `unknown` for any other name.  `fixBug`, `verifyBug` and
`assignEntity` are advertised but have no `switch` case, so they reach the
`default` branch. -/
inductive PetriTool where
  | startWorkingOn (identifier : String)
  | completeTask (identifier : String)
  | workOnBug (identifier : String)
  | fixBug (identifier : String)
  | verifyBug (identifier : String)
  | checkWorkflow
  | getEntity (entityId : String)
  | updateEntity (entityId newState : String)
  | assignEntity (entityId userId : String)
  | checkGoals
  | getMetrics
  | unknown (name : String)
  deriving Repr, DecidableEq

/-- The `switch (name)` body of the petri navigator's `tools/call` handler
(`src/unnamed/part_008`), acting on the already-incremented session.  Every
branch mirrors its source case: `startWorkingOn` resolves by id then first
name-substring match, auto-assigns and fires `Open → In Progress`;
`completeTask` resolves by exact id only and sets the `completeTaskMap`
image of the current state, defaulting to `Done`; `workOnBug` auto-assigns
and moves `New`/`Assigned` to `In Progress`; `updateEntity` sets any
requested state unconditionally; `fixBug`/`verifyBug`/`assignEntity` fall to
the `default` branch. -/
def petriDispatch (t : PetriTool) (p : PetriState) : CallResult × PetriState :=
  match t with
  | .startWorkingOn ident =>
    let p1 := { p with semanticHintsUsed := p.semanticHintsUsed + 1 }
    match resolveTask ident testStore.tasks with
    | none => (.ok "Task not found.", p1)
    | some task =>
      match aLookup task.id p1.places with
      | none => (typeErrorUndefined, p1)
      | some pl =>
        let plA := if pl.assignee = none then
          { pl with assignee := some "user-alice" } else pl
        let plB := if plA.state = "Open" then
          { plA with state := "In Progress", justTransitioned := true } else plA
        let p2 := { p1 with places := aModify task.id (fun _ => plB) p1.places }
        let hints := taskHints task.id plB.state
        let r := petriCheckGoalsAfterOperation p2
        (.ok ("✓ Started working on \"" ++ task.name ++ "\"\nState: " ++ plB.state ++
          "\nAssigned to: " ++ showAssignee plB.assignee ++ "\n" ++ goalsPart r.1 ++
          "\n\nNext Steps:\n" ++ dashLines hints.1 ++
          "\n\nSuggestions:\n" ++ dashLines hints.2), r.2)
  | .completeTask ident =>
    let p1 := { p with semanticHintsUsed := p.semanticHintsUsed + 1 }
    match aLookup ident testStore.tasks with
    | none => (.ok "Task not found.", p1)
    | some task =>
      match aLookup task.id p1.places with
      | none => (typeErrorUndefined, p1)
      | some pl =>
        let newState := (aLookup pl.state completeTaskMap).getD "Done"
        let p2 := { p1 with
          places := aModify task.id (fun q => { q with state := newState }) p1.places }
        let hints := taskHints task.id newState
        let r := petriCheckGoalsAfterOperation p2
        (.ok ("✓ Advanced \"" ++ task.name ++ "\" to " ++ newState ++ "\n" ++
          goalsPart r.1 ++ "\n\n" ++
          (if newState = "Done" then "🎉 Task completed!"
           else "Next Steps:\n" ++ dashLines hints.1) ++
          "\n\n" ++
          (if hints.2.isEmpty then "" else "\nSuggestions:\n" ++ dashLines hints.2)), r.2)
  | .workOnBug ident =>
    let p1 := { p with semanticHintsUsed := p.semanticHintsUsed + 1 }
    match aLookup ident testStore.bugs with
    | none => (.ok "Bug not found.", p1)
    | some bug =>
      match aLookup bug.id p1.places with
      | none => (typeErrorUndefined, p1)
      | some pl =>
        let plA := if pl.assignee = none then
          { pl with assignee := some "user-alice" } else pl
        let plB := if plA.state = "New" ∨ plA.state = "Assigned" then
          { plA with state := "In Progress" } else plA
        let p2 := { p1 with places := aModify bug.id (fun _ => plB) p1.places }
        (.ok ("✓ Working on bug: \"" ++ bug.name ++ "\"\nState: " ++ plB.state ++
          "\nAssigned to: " ++ showAssignee plB.assignee ++
          "\nSeverity: " ++ bug.severity ++
          "\n\nNext Steps:\n- Investigate the issue\n- Implement a fix\n- Mark as fixed when done" ++
          "\n\nSuggestions:\n- fixBug(" ++ bug.id ++ ")\n- updateEntity(" ++ bug.id ++
          ", Fixed)\n- addComment(" ++ bug.id ++ ", Found root cause...)"), p2)
  | .checkWorkflow =>
    let active := p.places.filter
      (fun q => !(q.2.state == "Done") && !(q.2.state == "Closed"))
    let itemLine := fun (q : String × Place) =>
      "- " ++ q.1 ++ ": " ++
      (match aLookup q.1 testStore.tasks with
       | some t => t.name
       | none =>
         match aLookup q.1 testStore.bugs with
         | some b => b.name
         | none => "undefined") ++
      " (" ++ q.2.state ++
      (match q.2.assignee with
       | some a => ", " ++ a
       | none => "") ++ ")"
    let actionLine := fun (q : String × Place) =>
      if q.2.state = "Open" then "- startWorkingOn(" ++ q.1 ++ ")"
      else if q.2.state = "In Progress" then "- completeTask(" ++ q.1 ++ ")"
      else if q.2.state = "Review" then "- updateEntity(" ++ q.1 ++ ", Testing)"
      else "- getEntity(" ++ q.1 ++ ")"
    (.ok ("Current Workflow State (Petri Net):\n\nActive Work Items:\n" ++
      String.intercalate "\n" (active.map itemLine) ++
      "\n\nAvailable Actions:\n" ++
      String.intercalate "\n" ((active.take 3).map actionLine) ++
      "\n\n💡 Petri Net Advantage: You can work on multiple items concurrently!"), p)
  | .getEntity eid =>
    match ((aLookup eid testStore.tasks).map (fun t => (t.name, false))) <|>
          ((aLookup eid testStore.bugs).map (fun b => (b.name, true))) with
    | none => (.ok "Entity not found.", p)
    | some ent =>
      match aLookup eid p.places with
      | none => (typeErrorUndefined, p)
      | some pl =>
        let hints := if ent.2 then ([], []) else taskHints eid pl.state
        (.ok ("Entity: " ++ ent.1 ++
          "\nType: " ++ (if ent.2 then "Bug" else "Task") ++
          "\nState: " ++ pl.state ++
          "\nAssignee: " ++ pl.assignee.getD "None" ++
          "\n\nNext Steps:\n" ++ dashLines hints.1 ++
          "\n\nSuggestions:\n" ++ dashLines hints.2), p)
  | .updateEntity eid ns =>
    match aLookup eid p.places with
    | none => (.ok "Entity not found.", p)
    | some _ =>
      let p2 := { p with
        places := aModify eid (fun q => { q with state := ns }) p.places }
      let r := petriCheckGoalsAfterOperation p2
      (.ok ("✓ Updated entity " ++ eid ++ " to " ++ ns ++ "\n" ++ goalsPart r.1 ++
        "\n\n💡 Petri Net: This state change may enable new transitions in connected workflow items."), r.2)
  | .checkGoals =>
    (.ok ("Goals Progress: " ++ toString p.goalsFound.length ++ "/" ++
      toString workflowGoals.length ++
      "\nTool Calls Made: " ++ toString p.toolCallCount ++
      "\nSemantic Hints Used: " ++ toString p.semanticHintsUsed ++
      "\nGoals Achieved: " ++
      (if p.goalsFound.isEmpty then "None yet"
       else String.intercalate ", " p.goalsFound) ++
      "\n\nPetri Net Advantage: Multiple paths to reach goals!"), p)
  | .getMetrics =>
    -- the source renders the ratio with toFixed(1) and the rate with
    -- toFixed(0); the decimal formatting is abstracted to integer division
    (.ok ("Petri Net Navigator Metrics:\n- Tool calls: " ++ toString p.toolCallCount ++
      "\n- Goals found: " ++ toString p.goalsFound.length ++
      "\n- Semantic hints used: " ++ toString p.semanticHintsUsed ++
      "\n- Efficiency: " ++
      (if p.goalsFound.length > 0 then
        toString (p.toolCallCount / p.goalsFound.length) ++ " calls per goal"
       else "No goals yet") ++
      "\n- Semantic usage rate: " ++
      toString (p.semanticHintsUsed * 100 / p.toolCallCount) ++ "%"), p)
  | .fixBug _ => (.ok "Unknown tool: fixBug", p)
  | .verifyBug _ => (.ok "Unknown tool: verifyBug", p)
  | .assignEntity _ _ => (.ok "Unknown tool: assignEntity", p)
  | .unknown n => (.ok ("Unknown tool: " ++ n), p)

/-- The petri navigator's `tools/call` handler: increments `toolCallCount`,
then dispatches on the tool name. -/
def petriHandleCall (t : PetriTool) (p : PetriState) : CallResult × PetriState :=
  petriDispatch t (pBump p)

/-- All tasks of a store lack the `validStates` property the navigator reads
(true of every dataset shipped with the repository). -/
def noVS (store : Store) : Prop :=
  ∀ p ∈ store.tasks, p.2.validStates = none

/-- The spec's scripted hierarchical path for one task mutation:
`listProjects, getProject, getTask, updateTaskState` (§8 call-count
exactness). -/
def fourCallScript : List ToolCall :=
  [ToolCall.listProjects, ToolCall.getProject "project-web",
   ToolCall.getTask "task-auth", ToolCall.updateTaskState "task-auth" "In Progress"]

/-- The dataset store with `task-auth` moved to its terminal state `Done`. -/
def doneStoreAuth : Store :=
  { testStore with
    tasks := aModify "task-auth" (fun t => { t with state := "Done" }) testStore.tasks }

/-- A session positioned at `task-auth` whose store holds `task-auth` in the
terminal state `Done`. -/
def sDoneAuth : FsmState :=
  { initState with store := doneStoreAuth, location := "task-auth" }

/-- The petri session with `task-auth`'s place in the terminal state
`Done`. -/
def pDoneAuth : PetriState :=
  { initPetri with
    places := aModify "task-auth" (fun q => { q with state := "Done" }) initPetri.places }

/-- A session in which `goal-ship-feature` has already been reported
satisfied (it is in `goalsFound`) and its condition still holds
(`task-auth` is `Done`). -/
def reReportState : FsmState :=
  { initState with
    store := doneStoreAuth, location := "task-auth",
    goalsFound := ["goal-ship-feature"] }

/-- Two task records whose names both contain `auth`, with ids chosen to
miss the resolver's exact-id stage; used to exercise the fuzzy stage. -/
def implAuthTask : Task :=
  { id := "task-100", name := "Implement Authentication", state := "Open",
    assignee := none, dependsOn := [],
    validTransitions := authGraph, validStates := none }

/-- The second fuzzy-stage record: its name matches `auth` at index 0. -/
def authSysTask : Task :=
  { id := "task-200", name := "Authentication System", state := "Open",
    assignee := none, dependsOn := [],
    validTransitions := authGraph, validStates := none }

/-! ## Helper lemmas -/

theorem aLookup_mem {l : List (String × α)} {k : String} {v : α}
    (h : aLookup k l = some v) : (k, v) ∈ l := by
  induction l with
  | nil => simp [aLookup] at h
  | cons p ps ih =>
    by_cases hp : p.1 = k
    · simp only [aLookup, hp, if_pos] at h
      cases h
      simp [← hp]
    · simp only [aLookup, hp, if_neg, if_false] at h
      exact List.mem_cons_of_mem _ (ih h)

theorem checkGoalsAfterOperation_store (s : FsmState) :
    ((checkGoalsAfterOperation s).2).store = s.store := rfl

theorem checkGoalsAfterOperation_count (s : FsmState) :
    ((checkGoalsAfterOperation s).2).toolCallCount = s.toolCallCount := rfl

theorem dispatch_count (c : ToolCall) (s : FsmState) :
    ((dispatch c s).2).toolCallCount = s.toolCallCount := by
  cases c <;> simp only [dispatch] <;> (repeat' split) <;>
    simp [checkGoalsAfterOperation]

theorem petriCheckGoals_places (p : PetriState) :
    ((petriCheckGoalsAfterOperation p).2).places = p.places := rfl

theorem petriCheckGoals_count (p : PetriState) :
    ((petriCheckGoalsAfterOperation p).2).toolCallCount = p.toolCallCount := rfl

theorem petriDispatch_count (t : PetriTool) (p : PetriState) :
    ((petriDispatch t p).2).toolCallCount = p.toolCallCount := by
  cases t <;> simp only [petriDispatch] <;> (repeat' split) <;>
    simp [petriCheckGoalsAfterOperation]

theorem goalScan_spec (store : Store) (gs : List Goal) :
    ∀ found : List String,
      (goalScan store gs found).2 =
        found ++ ((goalScan store gs found).1.map Goal.id) ∧
      ∀ g ∈ (goalScan store gs found).1, g.id ∉ found := by
  induction gs with
  | nil => intro found; simp [goalScan]
  | cons g tail ih =>
    intro found
    by_cases hin : g.id ∈ found
    · simpa [goalScan, hin] using ih found
    · by_cases hh : goalHolds store g
      · obtain ⟨h1, h2⟩ := ih (found ++ [g.id])
        refine ⟨?_, ?_⟩
        · simp only [goalScan, if_neg hin, if_pos hh, List.map_cons]
          rw [h1]
          simp
        · simp only [goalScan, if_neg hin, if_pos hh]
          intro g' hg'
          rcases List.mem_cons.mp hg' with hEq | hMem
          · subst hEq; exact hin
          · have := h2 g' hMem
            simp only [List.mem_append, List.mem_singleton] at this
            tauto
      · simpa [goalScan, hin, hh] using ih found

theorem aModify_assignee_taskStates (tid uid : String) (l : List (String × Task)) :
    (aModify tid (fun t => { t with assignee := some uid }) l).map
        (fun p => (p.1, p.2.state)) =
      l.map (fun p => (p.1, p.2.state)) := by
  simp only [aModify, List.map_map]
  congr 1
  funext p
  by_cases h : p.1 = tid <;> simp [h]

theorem aModify_assignee_noVS (tid uid : String) (l : List (String × Task))
    (h : ∀ p ∈ l, p.2.validStates = none) :
    ∀ p ∈ aModify tid (fun t => { t with assignee := some uid }) l,
      p.2.validStates = none := by
  intro p hp
  simp only [aModify, List.mem_map] at hp
  obtain ⟨q, hq, rfl⟩ := hp
  by_cases hk : q.1 = tid
  · rw [if_pos hk]
    exact h q hq
  · rw [if_neg hk]
    exact h q hq

theorem dispatch_taskStates (c : ToolCall) (s : FsmState) (h : noVS s.store) :
    taskStates ((dispatch c s).2).store = taskStates s.store ∧
      noVS ((dispatch c s).2).store := by
  cases c with
  | updateTaskState tid ns =>
    simp only [dispatch]
    split
    · split
      · exact ⟨by trivial, h⟩
      · rename_i task hlook
        have hvs : task.validStates = none := h _ (aLookup_mem hlook)
        simp only [hvs]
        exact ⟨by trivial, h⟩
    · exact ⟨by trivial, h⟩
  | updateBugState bid ns =>
    simp only [dispatch]
    (repeat' split) <;> exact ⟨by trivial, h⟩
  | assignTask tid uid =>
    simp only [dispatch]
    split
    · exact ⟨by trivial, h⟩
    · refine ⟨?_, ?_⟩
      · simpa [taskStates] using aModify_assignee_taskStates tid uid s.store.tasks
      · intro p hp
        exact aModify_assignee_noVS tid uid s.store.tasks h p hp
  | _ =>
    simp only [dispatch]
    (repeat' split) <;> exact ⟨by trivial, h⟩

theorem runCalls_taskStates (cs : List ToolCall) (s : FsmState) (h : noVS s.store) :
    taskStates ((runCalls cs s).2).store = taskStates s.store := by
  induction cs generalizing s with
  | nil => rfl
  | cons c tail ih =>
    have step := dispatch_taskStates c (bump s) h
    simp only [runCalls, handleCallTool]
    rw [ih _ step.2, step.1]
    rfl

/-! ## Claims -/

/-- Claim C1.  The claim states that `updateTaskState` succeeds and changes
the task's state iff the requested state is in `graph[e.kind][e.state]`, and
otherwise fails with `InvalidTransition` leaving the state unchanged.  The
code does neither: with the session legitimately at `task-auth` (after
`getTask`), requesting the graph-legal transition `Open → In Progress`
throws a TypeError — the handler reads the absent `validStates` field — and
the state stays `Open`. -/
theorem claim_C1_update_throws_despite_legal_transition :
    isLegal authGraph "Open" "In Progress" = true ∧
    ((handleCallTool (ToolCall.getTask "task-auth") initState).2).location = "task-auth" ∧
    (handleCallTool (ToolCall.updateTaskState "task-auth" "In Progress")
        ((handleCallTool (ToolCall.getTask "task-auth") initState).2)).1 =
      typeErrorUndefined ∧
    (aLookup "task-auth"
        ((handleCallTool (ToolCall.updateTaskState "task-auth" "In Progress")
            ((handleCallTool (ToolCall.getTask "task-auth") initState).2)).2).store.tasks).map
        Task.state = some "Open" := by
  decide

/-- Claim C2, counterexample.  Two refutations: from the freshly loaded
session, whose cursor is `root`, `assignTask` succeeds and mutates the
assignee with no `WrongLocation` error; and with the cursor at `task-ui` —
a task location, but not the target's — `updateTaskState` on `task-auth`
passes the location gate (it proceeds to the `validStates` read and throws,
instead of returning the `WrongLocation` error). -/
theorem claim_C2_counterexample_assign_succeeds_from_root :
    initState.location = "root" ∧
    (handleCallTool (ToolCall.assignTask "task-auth" "user-alice") initState).1 =
      CallResult.ok "Task Implement Authentication assigned to user-alice.\n\nFSM: Task assigned. Navigate elsewhere to continue." ∧
    (aLookup "task-auth"
        ((handleCallTool (ToolCall.assignTask "task-auth" "user-alice") initState).2).store.tasks).map
        Task.assignee = some (some "user-alice") ∧
    ({ initState with location := "task-ui" } : FsmState).location ≠ "task-auth" ∧
    (handleCallTool (ToolCall.updateTaskState "task-auth" "In Progress")
        { initState with location := "task-ui" }).1 = typeErrorUndefined := by
  decide

/-- Claim C2, amended.  `updateTaskState`/`updateBugState` return the
`WrongLocation` error naming the required prior call (`getTask`/`getBug`) —
changing nothing but the call counter — exactly when the cursor lacks the
`task-`/`bug-` id prefix; any location with the prefix, not necessarily the
target entity's, passes the gate, after which the call proceeds against the
target task/bug (on the dataset's records, to the `validStates` TypeError,
again with no state change).  `assignTask` and `assignBug` have no location
precondition: whenever the entity exists they mutate its assignee from any
location, including `root`. -/
theorem claim_C2_amended_location_gating :
    (∀ (s : FsmState) (tid ns : String), strStarts "task-" s.location = false →
      handleCallTool (ToolCall.updateTaskState tid ns) s =
        (CallResult.ok "FSM Error: Must be at task location. Use getTask first.", bump s)) ∧
    (∀ (s : FsmState) (bid ns : String), strStarts "bug-" s.location = false →
      handleCallTool (ToolCall.updateBugState bid ns) s =
        (CallResult.ok "FSM Error: Must be at bug location. Use getBug first.", bump s)) ∧
    (∀ (s : FsmState) (tid ns : String) (t : Task),
      strStarts "task-" s.location = true →
      aLookup tid s.store.tasks = some t →
      t.validStates = none →
      handleCallTool (ToolCall.updateTaskState tid ns) s = (typeErrorUndefined, bump s)) ∧
    (∀ (s : FsmState) (bid ns : String) (b : Bug),
      strStarts "bug-" s.location = true →
      aLookup bid s.store.bugs = some b →
      b.validStates = none →
      handleCallTool (ToolCall.updateBugState bid ns) s = (typeErrorUndefined, bump s)) ∧
    (∀ (s : FsmState) (tid uid : String) (t : Task),
      aLookup tid s.store.tasks = some t →
      handleCallTool (ToolCall.assignTask tid uid) s =
        (CallResult.ok ("Task " ++ t.name ++ " assigned to " ++ uid ++
            ".\n\nFSM: Task assigned. Navigate elsewhere to continue."),
         { bump s with store := { s.store with
            tasks := aModify tid (fun x => { x with assignee := some uid }) s.store.tasks } })) ∧
    (∀ (s : FsmState) (bid uid : String) (b : Bug),
      aLookup bid s.store.bugs = some b →
      handleCallTool (ToolCall.assignBug bid uid) s =
        (CallResult.ok ("Bug " ++ b.name ++ " assigned to " ++ uid ++
            ".\n\nFSM: Bug assigned. Navigate elsewhere to continue."),
         { bump s with store := { s.store with
            bugs := aModify bid (fun x => { x with assignee := some uid }) s.store.bugs } })) := by
  refine ⟨?_, ?_, ?_, ?_, ?_, ?_⟩
  · intro s tid ns h
    simp [handleCallTool, dispatch, bump] at h ⊢
    simp [h]
  · intro s bid ns h
    simp [handleCallTool, dispatch, bump] at h ⊢
    simp [h]
  · intro s tid ns t h1 h2 h3
    simp [handleCallTool, dispatch, bump] at h1 ⊢
    simp [h1, h2, h3]
  · intro s bid ns b h1 h2 h3
    simp [handleCallTool, dispatch, bump] at h1 ⊢
    simp [h1, h2, h3]
  · intro s tid uid t h
    simp [handleCallTool, dispatch, bump, h]
  · intro s bid uid b h
    simp [handleCallTool, dispatch, bump, h]

/-- Claim C2, amended — witness at concrete inputs: both gate failures from
`root`, both gate passes from another entity's location (`task-ui`,
`bug-performance`), and both assigns from `root`. -/
theorem claim_C2_amended_location_gating_witness :
    handleCallTool (ToolCall.updateTaskState "task-auth" "In Progress") initState =
      (CallResult.ok "FSM Error: Must be at task location. Use getTask first.", bump initState) ∧
    handleCallTool (ToolCall.updateBugState "bug-login" "Assigned") initState =
      (CallResult.ok "FSM Error: Must be at bug location. Use getBug first.", bump initState) ∧
    handleCallTool (ToolCall.updateTaskState "task-auth" "In Progress")
        { initState with location := "task-ui" } =
      (typeErrorUndefined, bump { initState with location := "task-ui" }) ∧
    handleCallTool (ToolCall.updateBugState "bug-login" "Assigned")
        { initState with location := "bug-performance" } =
      (typeErrorUndefined, bump { initState with location := "bug-performance" }) ∧
    handleCallTool (ToolCall.assignTask "task-auth" "user-alice") initState =
      (CallResult.ok "Task Implement Authentication assigned to user-alice.\n\nFSM: Task assigned. Navigate elsewhere to continue.",
       { bump initState with store := { initState.store with
          tasks := aModify "task-auth" (fun x => { x with assignee := some "user-alice" }) initState.store.tasks } }) ∧
    handleCallTool (ToolCall.assignBug "bug-login" "user-bob") initState =
      (CallResult.ok "Bug Login fails on mobile assigned to user-bob.\n\nFSM: Bug assigned. Navigate elsewhere to continue.",
       { bump initState with store := { initState.store with
          bugs := aModify "bug-login" (fun x => { x with assignee := some "user-bob" }) initState.store.bugs } }) :=
  ⟨claim_C2_amended_location_gating.1 initState "task-auth" "In Progress" (by decide),
   claim_C2_amended_location_gating.2.1 initState "bug-login" "Assigned" (by decide),
   claim_C2_amended_location_gating.2.2.1 { initState with location := "task-ui" }
     "task-auth" "In Progress"
     { id := "task-auth", name := "Implement Authentication", state := "Open",
       assignee := none, dependsOn := [],
       validTransitions := authGraph, validStates := none }
     (by decide) (by decide) (by decide),
   claim_C2_amended_location_gating.2.2.2.1 { initState with location := "bug-performance" }
     "bug-login" "Assigned"
     { id := "bug-login", name := "Login fails on mobile", state := "New",
       assignee := none, severity := "High",
       validTransitions := bugGraph, validStates := none }
     (by decide) (by decide) (by decide),
   claim_C2_amended_location_gating.2.2.2.2.1 initState "task-auth" "user-alice"
     { id := "task-auth", name := "Implement Authentication", state := "Open",
       assignee := none, dependsOn := [],
       validTransitions := authGraph, validStates := none } (by decide),
   claim_C2_amended_location_gating.2.2.2.2.2 initState "bug-login" "user-bob"
     { id := "bug-login", name := "Login fails on mobile", state := "New",
       assignee := none, severity := "High",
       validTransitions := bugGraph, validStates := none } (by decide)⟩

/-- Claim C6.  The claim states the handler never lets an exception escape
across the tool boundary.  It does: `getTask` on the existing task
`task-auth`, called on the freshly loaded dataset, throws a TypeError while
building its reply (reading `join` of the absent `validStates`), after
already moving the session cursor. -/
theorem claim_C6_handler_throws_across_tool_boundary :
    (handleCallTool (ToolCall.getTask "task-auth") initState).1 = typeErrorUndefined ∧
    ((handleCallTool (ToolCall.getTask "task-auth") initState).2).location = "task-auth" ∧
    ((handleCallTool (ToolCall.getTask "task-auth") initState).2).toolCallCount = 1 := by
  decide

/-- Claim C3, counterexample.  `completeTask` on `task-auth`, whose state is
`Open`, jumps the task straight to `Done` in one call — more than one
forward step, and a transition the Transition Validator rejects (`Done` is
not in `graph[Open]`) — while `fixBug` and `verifyBug`, having no `switch`
case, fall to the `default` branch and change nothing. -/
theorem claim_C3_counterexample_completeTask_skips_states :
    isLegal authGraph "Open" "Done" = false ∧
    (aLookup "task-auth"
        ((petriHandleCall (PetriTool.completeTask "task-auth") initPetri).2).places).map
        Place.state = some "Done" ∧
    petriHandleCall (PetriTool.fixBug "bug-performance") initPetri =
      (CallResult.ok "Unknown tool: fixBug", pBump initPetri) ∧
    petriHandleCall (PetriTool.verifyBug "bug-login") initPetri =
      (CallResult.ok "Unknown tool: verifyBug", pBump initPetri) := by
  decide

/-- Claim C3, amended.  `completeTask` resolves its argument as an exact task
id and sets the task's place to the image of the hardcoded map
`In Progress → Review → Testing → Done`, defaulting to `Done` for every
other state: from `In Progress`/`Review`/`Testing` that is a single forward
step, but from `Open` it jumps straight to `Done` — bypassing the Transition
Validator — and from `Done` it re-reports completion.  `fixBug` and
`verifyBug` are advertised in `tools/list` but have no `switch` case: they
fall to the Unknown-tool default and perform no state change. -/
theorem claim_C3_amended_semantic_ops_behavior :
    (aLookup "In Progress" completeTaskMap = some "Review" ∧
     aLookup "Review" completeTaskMap = some "Testing" ∧
     aLookup "Testing" completeTaskMap = some "Done" ∧
     aLookup "Open" completeTaskMap = none ∧
     aLookup "Done" completeTaskMap = none) ∧
    (∀ (p : PetriState) (ident : String) (task : Task) (pl : Place),
      aLookup ident testStore.tasks = some task →
      aLookup task.id p.places = some pl →
      ((petriHandleCall (PetriTool.completeTask ident) p).2).places =
        aModify task.id
          (fun q => { q with state := (aLookup pl.state completeTaskMap).getD "Done" })
          p.places) ∧
    (∀ (p : PetriState) (i : String),
      petriHandleCall (PetriTool.fixBug i) p =
        (CallResult.ok "Unknown tool: fixBug", pBump p) ∧
      petriHandleCall (PetriTool.verifyBug i) p =
        (CallResult.ok "Unknown tool: verifyBug", pBump p)) := by
  refine ⟨by decide, ?_, ?_⟩
  · intro p ident task pl h1 h2
    simp [petriHandleCall, petriDispatch, pBump, h1, h2, petriCheckGoalsAfterOperation]
  · intro p i
    exact ⟨rfl, rfl⟩

/-- Claim C3, amended — witness: on the fresh session, `completeTask` on
`task-auth` (state `Open`, which is outside the hardcoded map) writes the
fallback `Done` into its place. -/
theorem claim_C3_amended_semantic_ops_behavior_witness :
    ((petriHandleCall (PetriTool.completeTask "task-auth") initPetri).2).places =
      aModify "task-auth" (fun q => { q with state := "Done" }) initPetri.places :=
  claim_C3_amended_semantic_ops_behavior.2.1 initPetri "task-auth"
    { id := "task-auth", name := "Implement Authentication", state := "Open",
      assignee := none, dependsOn := [],
      validTransitions := authGraph, validStates := none }
    { state := "Open", assignee := none, justTransitioned := false }
    (by rfl) (by rfl)

/-- Claim C4, counterexample.  `updateEntity` on `task-auth` (state `Open`)
with requested state `Done` — illegal under the transition graph — mutates
the place to `Done` and reports success, where the claim requires
`InvalidTransition` with no mutation.  The multi-entry direct form therefore
drops more than the location precondition: it applies no legality rule at
all. -/
theorem claim_C4_counterexample_updateEntity_unconditional :
    isLegal authGraph "Open" "Done" = false ∧
    (petriHandleCall (PetriTool.updateEntity "task-auth" "Done") initPetri).1 =
      CallResult.ok "✓ Updated entity task-auth to Done\n\n🎯 GOALS ACHIEVED: Ship Authentication Feature!\n\n💡 Petri Net: This state change may enable new transitions in connected workflow items." ∧
    (aLookup "task-auth"
        ((petriHandleCall (PetriTool.updateEntity "task-auth" "Done") initPetri).2).places).map
        Place.state = some "Done" := by
  decide

/-- Claim C4, amended.  `updateEntity` drops not only the location
precondition but the transition-legality rule entirely: for any entity id
present in the places table it sets the place's state to the requested state
unconditionally and returns a structured success — there is no
`InvalidTransition` path.  It thus shares no legality rule with the
hierarchical `updateTaskState`, which gates on the location prefix and then
throws on the absent `validStates` field, likewise never consulting the
transition graph. -/
theorem claim_C4_amended_updateEntity_no_legality_check :
    (∀ (p : PetriState) (eid ns : String) (pl : Place),
      aLookup eid p.places = some pl →
      ((petriHandleCall (PetriTool.updateEntity eid ns) p).2).places =
        aModify eid (fun q => { q with state := ns }) p.places ∧
      ((petriHandleCall (PetriTool.updateEntity eid ns) p).1).isThrown = false) ∧
    (handleCallTool (ToolCall.updateTaskState "task-auth" "Done")
        ((handleCallTool (ToolCall.getTask "task-auth") initState).2)).1 =
      typeErrorUndefined := by
  refine ⟨?_, by decide⟩
  intro p eid ns pl h
  constructor
  · simp [petriHandleCall, petriDispatch, pBump, h, petriCheckGoalsAfterOperation]
  · simp [petriHandleCall, petriDispatch, pBump, h, CallResult.isThrown]

/-- Claim C4, amended — witness: `updateEntity` moves `task-auth` from
`Open` straight to `Done` with a non-thrown (structured) result. -/
theorem claim_C4_amended_updateEntity_no_legality_check_witness :
    ((petriHandleCall (PetriTool.updateEntity "task-auth" "Done") initPetri).2).places =
      aModify "task-auth" (fun q => { q with state := "Done" }) initPetri.places ∧
    ((petriHandleCall (PetriTool.updateEntity "task-auth" "Done") initPetri).1).isThrown = false :=
  claim_C4_amended_updateEntity_no_legality_check.1 initPetri "task-auth" "Done"
    { state := "Open", assignee := none, justTransitioned := false } (by rfl)

/-- Claim C5.  The claim states every `setState` on an entity in a terminal
state fails with `InvalidTransition` on either navigator, leaving the state
unchanged.  `Done` is indeed terminal for `task-auth` (empty edge set), but
the hierarchical `updateTaskState` throws a TypeError for every requested
state (absent `validStates`; the state does stay `Done`), and the petri
`updateEntity` accepts every requested state and mutates the `Done` entity —
neither navigator ever produces `InvalidTransition`. -/
theorem claim_C5_terminal_state_rejection :
    aLookup "Done" authGraph = some [] ∧
    (∀ ns : String,
      (handleCallTool (ToolCall.updateTaskState "task-auth" ns) sDoneAuth).1 =
        typeErrorUndefined ∧
      (aLookup "task-auth"
          ((handleCallTool (ToolCall.updateTaskState "task-auth" ns) sDoneAuth).2).store.tasks).map
          Task.state = some "Done") ∧
    (∀ ns : String,
      ((petriHandleCall (PetriTool.updateEntity "task-auth" ns) pDoneAuth).2).places =
        aModify "task-auth" (fun q => { q with state := ns }) pDoneAuth.places ∧
      ((petriHandleCall (PetriTool.updateEntity "task-auth" ns) pDoneAuth).1).isThrown = false) := by
  refine ⟨by decide, fun ns => ?_, fun ns => ?_⟩
  · have hst : strStarts "task-" (bump sDoneAuth).location = true := by decide
    have hl : aLookup "task-auth" (bump sDoneAuth).store.tasks =
        some { id := "task-auth", name := "Implement Authentication", state := "Done",
               assignee := none, dependsOn := [],
               validTransitions := authGraph, validStates := none } := by decide
    have heq : handleCallTool (ToolCall.updateTaskState "task-auth" ns) sDoneAuth =
        (typeErrorUndefined, bump sDoneAuth) := by
      simp [handleCallTool, dispatch, hst, hl]
    rw [heq]
    exact ⟨rfl, by decide⟩
  · have hl2 : aLookup "task-auth" pDoneAuth.places =
        some { state := "Done", assignee := none, justTransitioned := false } := by decide
    constructor
    · simp [petriHandleCall, petriDispatch, pBump, hl2, petriCheckGoalsAfterOperation]
    · simp [petriHandleCall, petriDispatch, pBump, hl2, CallResult.isThrown]

/-- Claim C9, counterexample.  With two tasks named `Implement
Authentication` and `Authentication System`, resolving `auth` returns
whichever matching task comes first in table iteration order — in the first
order the winner's earliest match starts at index 10 while the other entity
matches at index 0 — so resolution neither prefers the earliest-index match
nor is independent of iteration order. -/
theorem claim_C9_counterexample_resolution_order_dependent :
    (resolveTask "auth" [("task-100", implAuthTask), ("task-200", authSysTask)]).map
        Task.id = some "task-100" ∧
    (resolveTask "auth" [("task-200", authSysTask), ("task-100", implAuthTask)]).map
        Task.id = some "task-200" ∧
    fuzzyIdx "auth" "Implement Authentication" = some 10 ∧
    fuzzyIdx "auth" "Authentication System" = some 0 := by
  decide

/-- Claim C9, amended.  Resolution — performed only by `startWorkingOn` —
tries the exact task id first; otherwise it returns the first task whose
lower-cased name contains the lower-cased identifier, in table iteration
order.  There is no exact-name stage and no earliest-match-index ranking, so
which of several matching entities wins depends on insertion order. -/
theorem claim_C9_amended_resolution_first_includes_match :
    (∀ (tasks : List (String × Task)) (ident : String) (t : Task),
      aLookup ident tasks = some t → resolveTask ident tasks = some t) ∧
    (∀ (tasks : List (String × Task)) (ident : String) (t : Task),
      resolveTask ident tasks = some t →
      aLookup ident tasks = some t ∨
        (aLookup ident tasks = none ∧ nameIncludes ident t.name = true ∧
          t ∈ tasks.map Prod.snd)) := by
  constructor
  · intro tasks ident t h
    simp [resolveTask, h]
  · intro tasks ident t h
    unfold resolveTask at h
    split at h
    · rename_i t0 heq
      cases h
      exact Or.inl heq
    · rename_i heq
      have hp := List.find?_some h
      have hmem := List.mem_of_find?_eq_some h
      exact Or.inr ⟨heq, by simpa using hp, hmem⟩

/-- Claim C9, amended — witness: the exact-id stage on the dataset, and the
soundness of the fuzzy stage at the two-entity table. -/
theorem claim_C9_amended_resolution_first_includes_match_witness :
    resolveTask "task-auth" testStore.tasks =
      some { id := "task-auth", name := "Implement Authentication", state := "Open",
             assignee := none, dependsOn := [],
             validTransitions := authGraph, validStates := none } ∧
    (aLookup "auth" [("task-100", implAuthTask), ("task-200", authSysTask)] =
        some implAuthTask ∨
      (aLookup "auth" [("task-100", implAuthTask), ("task-200", authSysTask)] = none ∧
        nameIncludes "auth" implAuthTask.name = true ∧
        implAuthTask ∈ [("task-100", implAuthTask), ("task-200", authSysTask)].map Prod.snd)) :=
  ⟨claim_C9_amended_resolution_first_includes_match.1 testStore.tasks "task-auth"
     { id := "task-auth", name := "Implement Authentication", state := "Open",
       assignee := none, dependsOn := [],
       validTransitions := authGraph, validStates := none } (by rfl),
   claim_C9_amended_resolution_first_includes_match.2
     [("task-100", implAuthTask), ("task-200", authSysTask)] "auth" implAuthTask (by rfl)⟩

/-- Claim C7.  The claim states the scripted 4-call path `listProjects,
getProject, getTask, updateTaskState` performs one successful task mutation
and that nothing shorter does.  Running that exact script from the fresh
session, calls 3 and 4 throw TypeErrors (absent `validStates`) and
`task-auth` stays `Open`; moreover no tool-call sequence of any length ever
changes any task's state, because `updateTaskState` reads the absent field
before its mutation. -/
theorem claim_C7_four_call_script_never_mutates :
    ((runCalls fourCallScript initState).1.map CallResult.isThrown =
        [false, false, true, true] ∧
      (aLookup "task-auth" ((runCalls fourCallScript initState).2).store.tasks).map
          Task.state = some "Open" ∧
      ((runCalls fourCallScript initState).2).toolCallCount = 4) ∧
    ∀ cs : List ToolCall,
      taskStates ((runCalls cs initState).2).store = taskStates initState.store := by
  refine ⟨by decide, fun cs => runCalls_taskStates cs initState ?_⟩
  intro p hp
  fin_cases hp <;> rfl

/-- Claim C8, counterexample.  In a session where `goal-ship-feature` has
already been recorded as reported (it is in `goalsFound`) and its condition
still holds, the `checkGoals` tool reports the goal as satisfied again: it
recomputes satisfaction from the live entity states and never consults the
per-session satisfied set. -/
theorem claim_C8_counterexample_checkGoals_rereports :
    "goal-ship-feature" ∈ reReportState.goalsFound ∧
    (goalsCompletedNow reReportState.store).map Goal.id = ["goal-ship-feature"] ∧
    (handleCallTool ToolCall.checkGoals reReportState).1 =
      CallResult.ok "Goals Status:\n✓ Ship Authentication Feature (100 points)\n\nTotal Points: 100/800\nGoals Found by FSM: 1" ∧
    ((handleCallTool ToolCall.checkGoals reReportState).2).goalsFound =
      reReportState.goalsFound := by
  decide

/-- Claim C8, amended.  The mutation-path goal reporting
(`checkGoalsAfterOperation`) is idempotent: every goal it reports is absent
from the session's satisfied set, and the set grows to the old set plus
exactly the newly reported ids — so across mutation reports each goal is
reported at most once and the set is monotone.  The `checkGoals` tool, by
contrast, re-lists every currently satisfied goal on each call. -/
theorem claim_C8_amended_mutation_reports_idempotent (s : FsmState) :
    ((checkGoalsAfterOperation s).2).goalsFound =
      s.goalsFound ++ ((checkGoalsAfterOperation s).1.map Goal.id) ∧
    ∀ g ∈ (checkGoalsAfterOperation s).1, g.id ∉ s.goalsFound := by
  have h := goalScan_spec s.store workflowGoals s.goalsFound
  exact ⟨h.1, h.2⟩

theorem handleCallTool_count (c : ToolCall) (s : FsmState) :
    ((handleCallTool c s).2).toolCallCount = s.toolCallCount + 1 := by
  have h := dispatch_count c (bump s)
  simpa [bump] using h

/-- Claim C10.  On both navigators every `tools/call` invocation — any tool
name, the advertised-but-unhandled petri tools (`fixBug`, `verifyBug`,
`assignEntity`), unknown tools, and thrown-error outcomes included —
increments the session's tool-call counter exactly once, before dispatch, so
after any call sequence the counter equals the number of invocations made. -/
theorem claim_C10_call_counter_increments_once :
    (∀ (c : ToolCall) (s : FsmState),
      ((handleCallTool c s).2).toolCallCount = s.toolCallCount + 1) ∧
    (∀ (cs : List ToolCall) (s : FsmState),
      ((runCalls cs s).2).toolCallCount = s.toolCallCount + cs.length) ∧
    (∀ (t : PetriTool) (p : PetriState),
      ((petriHandleCall t p).2).toolCallCount = p.toolCallCount + 1) := by
  refine ⟨handleCallTool_count, ?_, ?_⟩
  · intro cs
    induction cs with
    | nil => intro s; simp [runCalls]
    | cons c tail ih =>
      intro s
      simp only [runCalls, List.length_cons]
      rw [ih, handleCallTool_count]
      omega
  · intro t p
    have h := petriDispatch_count t (pBump p)
    simpa [petriHandleCall, pBump] using h

end SemanticPetriNet
